import Mathlib

/-!
Shallow embedding of the weather-prediction app's core
(`src/components/PredictionForm.tsx` and the `api` service module).

Numbers are modelled as exact rationals extended with the JavaScript
special values `Infinity`, `-Infinity` and `NaN`.  This is exact for the
NaN / infinity distinctions the validation code observes; IEEE rounding of
finite values is not modelled (no claim here depends on it).
-/

/-- A JavaScript number: a finite value (modelled exactly as a rational),
positive or negative infinity, or NaN. -/
inductive JSNum where
  | num (q : ℚ)
  | posInf
  | negInf
  | nan
deriving DecidableEq, Repr

/-- JavaScript `isNaN` on a number value. -/
def jsIsNaN : JSNum → Bool
  | .nan => true
  | _ => false

/-- JavaScript `s || d` for strings: the empty string is falsy. -/
def jsOrS (s d : String) : String :=
  if s = "" then d else s

/-- JavaScript array indexing `l[i]` with a possibly negative or
out-of-range index: `undefined` is modelled as `none`. -/
def jsGet {α : Type} (l : List α) (i : ℤ) : Option α :=
  if 0 ≤ i then l.get? i.toNat else none

/-- Whitespace skipped by `parseFloat` (the common cases). -/
def isWS (c : Char) : Bool :=
  c = ' ' || c = '\t' || c = '\n' || c = '\r'

def isDigitCh (c : Char) : Bool :=
  '0' ≤ c && c ≤ '9'

/-- Numeric value of a digit string (most significant first). -/
def digitsToNat (ds : List Char) : ℕ :=
  ds.foldl (fun a c => 10 * a + (c.toNat - '0'.toNat)) 0

/-- Split a character list into its leading digits and the rest. -/
def takeDigits (l : List Char) : List Char × List Char :=
  (l.takeWhile isDigitCh, l.dropWhile isDigitCh)

/-- Parse the unsigned part of a JS `StrDecimalLiteral`
(`Infinity`, `Digits ['.' Digits?] Exp?` or `'.' Digits Exp?`),
taking the longest valid prefix; `none` when no prefix parses. -/
def parseMagnitude (l : List Char) : Option JSNum :=
  if l.take 8 = "Infinity".toList then
    some .posInf
  else
    let (intD, r1) := takeDigits l
    let (fracD, r2) :=
      match r1 with
      | '.' :: t => takeDigits t
      | _ => ([], r1)
    if intD = [] ∧ fracD = [] then
      none
    else
      let base : ℚ := (digitsToNat intD : ℚ) + (digitsToNat fracD : ℚ) / (10 : ℚ) ^ fracD.length
      let exp : ℤ :=
        match r2 with
        | c :: rest =>
          if c = 'e' ∨ c = 'E' then
            let (esign, rest2) : ℤ × List Char :=
              match rest with
              | '+' :: t => (1, t)
              | '-' :: t => (-1, t)
              | t => (1, t)
            let (expD, _) := takeDigits rest2
            if expD = [] then 0 else esign * (digitsToNat expD : ℤ)
          else 0
        | [] => 0
      let scaled : ℚ :=
        if 0 ≤ exp then base * (10 : ℚ) ^ exp.toNat else base / (10 : ℚ) ^ (-exp).toNat
      some (.num scaled)

/-- JavaScript `parseFloat`: skip leading whitespace, optional sign, then
the longest decimal-literal prefix; `NaN` when nothing parses. -/
def parseFloat (s : String) : JSNum :=
  let l := s.toList.dropWhile isWS
  match l with
  | '+' :: rest => (parseMagnitude rest).getD .nan
  | '-' :: rest =>
    match parseMagnitude rest with
    | some (.num q) => .num (-q)
    | some .posInf => .negInf
    | some x => x
    | none => .nan
  | rest => (parseMagnitude rest).getD .nan

/-! ## Data model (from `PredictionForm.tsx` and the api module) -/

/-- One row of the 14-day grid: raw text field values (`WeatherRow`). -/
structure WeatherRow where
  max : String
  min : String
  precip : String
  snow : String
  depth : String
deriving DecidableEq, Repr

/-- A per-model successful prediction (`PredictionResult`). -/
structure PredictionResult where
  value : ℚ
  unit : String
deriving DecidableEq, Repr

/-- The inference boundary's success payload (`PredictionResponse`);
`meta` carries no data the form reads, so it is not modelled. -/
structure PredictionResponse where
  predictions : List (String × PredictionResult)
  errors : Option (List (String × String))
deriving DecidableEq, Repr

/-- The `data` object attached to an axios error response;
`error` is its optional `error` field. -/
structure RespData where
  error : Option String
deriving DecidableEq, Repr

/-- An axios failure: the thrown error's `message`, and `some` response
data when `error.response && error.response.data` is truthy. -/
structure AxiosError where
  message : String
  responseData : Option RespData
deriving DecidableEq, Repr

/-! ## toggleModel (PredictionForm.tsx lines 81-85) -/

/-- `toggleModel`: remove `id` from the selection if present
(`prev.filter(m => m !== id)`), otherwise append it (`[...prev, id]`). -/
def toggleModel (id : String) (prev : List String) : List String :=
  if id ∈ prev then prev.filter (fun m => m != id) else prev ++ [id]

/-! ## handlePredict (PredictionForm.tsx lines 127-166) -/

/-- One row of the numeric window built by `handlePredict`:
`[parseFloat(row.max), parseFloat(row.min), parseFloat(row.precip || '0'),
parseFloat(row.snow || '0'), parseFloat(row.depth || '0')]`. -/
def rowVec (row : WeatherRow) : List JSNum :=
  [parseFloat row.max, parseFloat row.min, parseFloat (jsOrS row.precip "0"),
   parseFloat (jsOrS row.snow "0"), parseFloat (jsOrS row.depth "0")]

/-- The numeric window `handlePredict` builds from the grid. -/
def buildWindow (weatherData : List WeatherRow) : List (List JSNum) :=
  weatherData.map rowVec

/-- The error-translation layer of `api.getPrediction`'s catch block:
with response data present, throw `data.error || "Server error"`;
otherwise rethrow the original error (its own message). -/
def apiGetPredictionErr (e : AxiosError) : String :=
  match e.responseData with
  | some d =>
    match d.error with
    | some s => if s = "" then "Server error" else s
    | none => "Server error"
  | none => e.message

/-- `api.getPrediction`: pass a successful response through; translate a
failure into a thrown error message via the catch block. -/
def apiGetPrediction (b : Except AxiosError PredictionResponse) :
    Except String PredictionResponse :=
  match b with
  | .ok r => .ok r
  | .error e => .error (apiGetPredictionErr e)

/-- The component state `handlePredict` leaves behind, plus whether the
inference boundary was invoked. -/
structure HPResult where
  globalError : Option String
  predictions : Option (List (String × PredictionResult))
  modelErrors : List (String × String)
  apiCalled : Bool
deriving DecidableEq, Repr

/-- `handlePredict`: reset state; reject an empty selection; reject a row
with an empty max or min temperature; build the window and reject NaN
entries; otherwise call the boundary and store its `predictions` and
`errors` maps, or the caught error message
(`err.message || "Prediction failed."`). -/
def handlePredict (selectedModels : List String) (weatherData : List WeatherRow)
    (boundary : Except AxiosError PredictionResponse) : HPResult :=
  if selectedModels.length = 0 then
    ⟨some "Select at least one model.", none, [], false⟩
  else if weatherData.any (fun row => row.max = "" || row.min = "") then
    ⟨some "Max & Min temps needed.", none, [], false⟩
  else
    let window := buildWindow weatherData
    if window.any (fun row => row.any jsIsNaN) then
      ⟨some "Invalid numbers detected.", none, [], false⟩
    else
      match apiGetPrediction boundary with
      | .ok response => ⟨none, some response.predictions, response.errors.getD [], true⟩
      | .error msg =>
        ⟨some (if msg = "" then "Prediction failed." else msg), none, [], true⟩

/-- The key set of the stored outcome: ids of the predictions map followed
by ids of the per-model errors map. -/
def outcomeKeys (r : HPResult) : List String :=
  (r.predictions.getD []).map Prod.fst ++ r.modelErrors.map Prod.fst

/-! ## handleCitySearch (PredictionForm.tsx lines 89-125) -/

/-- The provider's `daily` block: parallel day-indexed arrays.  `α` is the
provider's numeric value type (converted to text with `toStr` below). -/
structure Daily (α : Type) where
  time : List String
  temperature_2m_max : List α
  temperature_2m_min : List α
  precipitation_sum : List α
  snowfall_sum : List α
deriving DecidableEq, Repr

/-- The historical-weather response: `daily` may be absent.  (Responses in
which an individual field array is absent are outside this model: the code
would throw a TypeError when indexing `undefined`.) -/
structure HistoricalResponse (α : Type) where
  daily : Option (Daily α)
deriving DecidableEq, Repr

/-- The component state `handleCitySearch` leaves behind after the
historical-weather fetch resolves. -/
structure CityResult where
  globalError : Option String
  weatherData : List WeatherRow
  predictions : Option (List (String × PredictionResult))
deriving DecidableEq, Repr

/-- Row `i` of the grid filled from a provider response:
`max/min = arr[idx]?.toString() || ''`,
`precip/snow = arr[idx]?.toString() || '0'`, `depth = '0'`,
with `idx = startIndex + i`. -/
def citySearchRow {α : Type} (toStr : α → String) (d : Daily α)
    (startIndex : ℤ) (i : ℕ) : WeatherRow :=
  let idx := startIndex + (i : ℤ)
  { max := ((jsGet d.temperature_2m_max idx).map toStr).getD ""
    min := ((jsGet d.temperature_2m_min idx).map toStr).getD ""
    precip :=
      match jsGet d.precipitation_sum idx with
      | some v => jsOrS (toStr v) "0"
      | none => "0"
    snow :=
      match jsGet d.snowfall_sum idx with
      | some v => jsOrS (toStr v) "0"
      | none => "0"
    depth := "0" }

/-- The adapter part of `handleCitySearch`, from the point the
historical-weather fetch has resolved: throw "Insufficient data." when
`daily` is absent or the min-temperature array has fewer than 14 entries
(the caught message becomes the global error and the previous state is
kept); otherwise write 14 rows starting at `time.length - 14` and clear
the predictions. -/
def handleCitySearch {α : Type} (toStr : α → String) (resp : HistoricalResponse α)
    (prevRows : List WeatherRow) (prevPreds : Option (List (String × PredictionResult))) :
    CityResult :=
  match resp.daily with
  | none => ⟨some "Insufficient data.", prevRows, prevPreds⟩
  | some d =>
    if d.temperature_2m_min.length < 14 then
      ⟨some "Insufficient data.", prevRows, prevPreds⟩
    else
      let startIndex : ℤ := (d.time.length : ℤ) - 14
      ⟨none, (List.range 14).map (citySearchRow toStr d startIndex), none⟩

/-! ## predictMinTemp (PredictionForm.tsx lines 650-680) -/

/-- The extracted linear-regression parameters (`MODEL_PARAMS`). -/
structure ModelParams where
  coef : List ℚ
  intercept : ℚ

def MODEL_PARAMS : ModelParams :=
  { coef := [
      0.04580286497755781, -0.011584427506313083, 0.01661403037395369,
      0.03961451535563647, -0.037207508480158274, 0.013884377296592913,
      0.03579110776650467, -0.024399272308905685, -0.009818628453376832,
      0.03930261370839062, 0.05580468660604358, 0.02335354609210913,
      -0.15547531276564677, 0.943872100008633]
    intercept := 1.1008575337049606 }

/-- `predictMinTemp`: require exactly 14 values, then return
`reduce((sum, temp, i) => sum + temp * coef[i], 0) + intercept`. -/
def predictMinTemp (temperatures : List ℚ) : Except String ℚ :=
  if temperatures.length ≠ 14 then
    .error "Exactly 14 temperature values are required."
  else
    let dotProduct :=
      temperatures.enum.foldl (fun sum p => sum + p.2 * MODEL_PARAMS.coef.getD p.1 0) 0
    .ok (dotProduct + MODEL_PARAMS.intercept)

/-! ## Concrete data used by witnesses and counterexamples -/

/-- A grid of 14 valid rows (blank optional fields). -/
def validWd : List WeatherRow :=
  List.replicate 14 ⟨"1", "2", "", "", ""⟩

/-- A grid whose first row's max field is the string "Infinity": every
required field is non-empty, and every field parses as a number, but not
as a finite one. -/
def wdInf : List WeatherRow :=
  ⟨"Infinity", "1", "", "", ""⟩ :: List.replicate 13 ⟨"1", "1", "", "", ""⟩

/-- A grid with a non-numeric optional field. -/
def wdBad : List WeatherRow :=
  List.replicate 14 ⟨"1", "2", "x", "", ""⟩

/-- A boundary response answering only for the model id "rf". -/
def okRespRfOnly : PredictionResponse :=
  ⟨[("rf", ⟨41.2, "°F"⟩)], none⟩

/-- The spec's mixed scenario: "rf" succeeds, "gbr_tuned" fails. -/
def okRespMixed : PredictionResponse :=
  ⟨[("rf", ⟨41.2, "°F"⟩)], some [("gbr_tuned", "timeout")]⟩

/-- Conversion to text used when instantiating the polymorphic adapter at
a concrete (decidable) value type. -/
def boolStr (b : Bool) : String :=
  if b then "1" else "0"

/-- A provider response whose min-temperature array has 14 entries but
whose max-temperature array is empty. -/
def shortMaxDaily : Daily Bool :=
  { time := List.replicate 14 "t"
    temperature_2m_max := []
    temperature_2m_min := List.replicate 14 true
    precipitation_sum := []
    snowfall_sum := [] }

/-- A grid of 14 rows whose required temperature fields are all empty. -/
def emptyWd : List WeatherRow := List.replicate 14 ⟨"", "", "", "", ""⟩

/-- A transport failure carrying a structured error payload. -/
def transportErr : AxiosError := ⟨"Network Error", some ⟨some "timeout"⟩⟩

/-- A provider response with 15 entries in every array. -/
def daily15 : Daily Bool :=
  { time := List.replicate 15 "t"
    temperature_2m_max := List.replicate 15 true
    temperature_2m_min := List.replicate 15 false
    precipitation_sum := List.replicate 15 false
    snowfall_sum := List.replicate 15 true }

/-! ## Theorems -/

/-- C2: an empty model selection terminates `handlePredict` with the one
request-level message "Select at least one model.", empty outcome maps,
and no call to the inference boundary, whatever the grid contains. -/
theorem c2_empty_selection_no_call (wd : List WeatherRow)
    (b : Except AxiosError PredictionResponse) :
    handlePredict [] wd b = ⟨some "Select at least one model.", none, [], false⟩ := rfl

/-- C8: `predictMinTemp` throws (with its length message) exactly when the
input vector's length differs from 14; in particular vectors of length 13
or 15 are rejected rather than truncated or padded. -/
theorem c8_shape_mismatch_iff (v : List ℚ) :
    predictMinTemp v = .error "Exactly 14 temperature values are required." ↔
      v.length ≠ 14 := by
  unfold predictMinTemp
  split
  · simp_all
  · simp_all

/-- C10: on a duplicate-free selection, `toggleModel` keeps it
duplicate-free; toggling the same id twice returns a selection equal as a
set to the original; toggling an absent id appends it exactly once, and
toggling a present id removes every occurrence. -/
theorem c10_toggle_involutive (id : String) (prev : List String) (h : prev.Nodup) :
    (toggleModel id prev).Nodup
    ∧ (∀ x, x ∈ toggleModel id (toggleModel id prev) ↔ x ∈ prev)
    ∧ (id ∉ prev → toggleModel id prev = prev ++ [id] ∧ (toggleModel id prev).count id = 1)
    ∧ (id ∈ prev → id ∉ toggleModel id prev) := by
  by_cases hm : id ∈ prev
  · have h1 : toggleModel id prev = prev.filter (fun m => m != id) := if_pos hm
    have hid : id ∉ toggleModel id prev := by
      rw [h1]; simp [List.mem_filter]
    have h2 : toggleModel id (toggleModel id prev) = toggleModel id prev ++ [id] :=
      if_neg hid
    refine ⟨h1 ▸ h.filter _, ?_, fun hn => absurd hm hn, fun _ => hid⟩
    intro x
    rw [h2, h1]
    simp only [List.mem_append, List.mem_filter, List.mem_singleton, bne_iff_ne,
      decide_eq_true_eq]
    constructor
    · rintro (⟨hx, _⟩ | rfl)
      · exact hx
      · exact hm
    · intro hx
      by_cases hxi : x = id
      · exact Or.inr hxi
      · exact Or.inl ⟨hx, hxi⟩
  · have h1 : toggleModel id prev = prev ++ [id] := if_neg hm
    have hid : id ∈ toggleModel id prev := by rw [h1]; simp
    have h2 : toggleModel id (toggleModel id prev) =
        (toggleModel id prev).filter (fun m => m != id) := if_pos hid
    refine ⟨?_, ?_, fun _ => ⟨h1, ?_⟩, fun hmem => absurd hmem hm⟩
    · rw [h1]
      simp [List.nodup_append, h, hm]
    · intro x
      rw [h2, h1]
      simp only [List.mem_filter, List.mem_append, List.mem_singleton, bne_iff_ne,
        decide_eq_true_eq]
      constructor
      · rintro ⟨hx | rfl, hne⟩
        · exact hx
        · exact absurd rfl hne
      · intro hx
        exact ⟨Or.inl hx, fun hxi => hm (hxi ▸ hx)⟩
    · rw [h1]
      simp [List.count_append, List.count_eq_zero_of_not_mem hm]

theorem c10_toggle_involutive_witness :
    (["rf", "gbr_tuned"] : List String).Nodup
    ∧ (toggleModel "lstm" ["rf", "gbr_tuned"]).Nodup :=
  ⟨by decide, (c10_toggle_involutive "lstm" ["rf", "gbr_tuned"] (by decide)).1⟩

/-- The indexed reduce in `predictMinTemp` computes the dot product with
the coefficient vector. -/
theorem enumFrom_foldl_dot (c : List ℚ) (l : List ℚ) : ∀ (n : ℕ) (init : ℚ),
    (List.enumFrom n l).foldl (fun sum p => sum + p.2 * c.getD p.1 0) init
      = init + ∑ i ∈ Finset.range l.length, l.getD i 0 * c.getD (n + i) 0 := by
  induction l with
  | nil => intro n init; simp
  | cons a t ih =>
    intro n init
    rw [List.enumFrom_cons, List.foldl_cons, ih (n + 1) (init + a * c.getD n 0),
      List.length_cons, Finset.sum_range_succ']
    simp only [List.getD_cons_succ, List.getD_cons_zero]
    have hc : ∀ i, c.getD (n + 1 + i) 0 = c.getD (n + (i + 1)) 0 := by
      intro i; congr 1; omega
    rw [Finset.sum_congr rfl (fun i _ => by rw [hc i]), add_assoc,
      add_comm (a * c.getD n 0)]
    simp

/-- On a 14-element vector `predictMinTemp` returns the dot product with
the coefficients plus the intercept. -/
theorem predictMinTemp_eq_dot (v : List ℚ) (h : v.length = 14) :
    predictMinTemp v =
      .ok ((∑ i ∈ Finset.range 14, v.getD i 0 * MODEL_PARAMS.coef.getD i 0)
        + MODEL_PARAMS.intercept) := by
  unfold predictMinTemp
  rw [if_neg (by omega), List.enum_eq_enumFrom, enumFrom_foldl_dot, zero_add, h]
  simp

/-- The all-zero vector yields exactly the intercept. -/
theorem predictMinTemp_zero_vec :
    predictMinTemp (List.replicate 14 0) = .ok (1.1008575337049606 : ℚ) := by
  rw [predictMinTemp_eq_dot _ (by simp)]
  have hz : ∀ i ∈ Finset.range 14,
      (List.replicate 14 (0 : ℚ)).getD i 0 * MODEL_PARAMS.coef.getD i 0 = 0 := by
    intro i _
    have h0 : (List.replicate 14 (0 : ℚ)).getD i 0 = 0 := by
      simp only [List.getD_eq_getElem?_getD, List.getElem?_replicate]
      split <;> rfl
    rw [h0, zero_mul]
  rw [Finset.sum_eq_zero hz, zero_add]
  rfl

/-- C7: on any 14-element vector, `predictMinTemp` returns
`sum of vector[i] * coef[i] + 1.1008575337049606`; the all-zero vector
returns exactly the intercept, and equal inputs give equal outputs. -/
theorem c7_linear_engine (v : List ℚ) (h : v.length = 14) :
    predictMinTemp v =
      .ok ((∑ i ∈ Finset.range 14, v.getD i 0 * MODEL_PARAMS.coef.getD i 0)
        + MODEL_PARAMS.intercept)
    ∧ predictMinTemp (List.replicate 14 0) = .ok (1.1008575337049606 : ℚ)
    ∧ ∀ w, v = w → predictMinTemp v = predictMinTemp w :=
  ⟨predictMinTemp_eq_dot v h, predictMinTemp_zero_vec, fun _ hw => by rw [hw]⟩

theorem c7_linear_engine_witness :
    (List.replicate 14 (0 : ℚ)).length = 14
    ∧ predictMinTemp (List.replicate 14 0) = .ok (1.1008575337049606 : ℚ) :=
  ⟨by simp, (c7_linear_engine (List.replicate 14 0) (by simp)).2.1⟩

/-- A numeric value fails the `isNaN` check exactly when it is NaN. -/
theorem jsIsNaN_eq_true {v : JSNum} : jsIsNaN v = true ↔ v = JSNum.nan := by
  cases v <;> simp [jsIsNaN]

/-- The string "0" parses to the finite number 0. -/
theorem parseFloat_zero : parseFloat "0" = JSNum.num 0 := by
  have h1 : parseFloat "0" =
      JSNum.num (((digitsToNat ['0'] : ℚ) + (digitsToNat ([] : List Char) : ℚ)
        / (10 : ℚ) ^ ([] : List Char).length) * (10 : ℚ) ^ (0 : ℤ).toNat) := rfl
  have h2 : digitsToNat ['0'] = 0 := rfl
  have h3 : digitsToNat ([] : List Char) = 0 := rfl
  rw [h1, h2, h3]
  norm_num

/-- When every validation check passes and the boundary answers, the form
stores the boundary's maps verbatim. -/
theorem handlePredict_ok (sel : List String) (wd : List WeatherRow)
    (resp : PredictionResponse) (hsel : sel ≠ [])
    (hfill : ∀ r ∈ wd, r.max ≠ "" ∧ r.min ≠ "")
    (hnum : (buildWindow wd).any (fun row => row.any jsIsNaN) = false) :
    handlePredict sel wd (.ok resp) =
      ⟨none, some resp.predictions, resp.errors.getD [], true⟩ := by
  have h1 : ¬ sel.length = 0 := by simpa [List.length_eq_zero] using hsel
  have h2 : wd.any (fun row => row.max = "" || row.min = "") = false := by
    simp only [List.any_eq_false]
    intro r hr
    obtain ⟨hmax, hmin⟩ := hfill r hr
    simp [hmax, hmin]
  simp [handlePredict, h1, h2, hnum, apiGetPrediction]

/-- When every validation check passes and the round-trip fails, the form
stores one global error message derived from the caught error. -/
theorem handlePredict_err (sel : List String) (wd : List WeatherRow)
    (e : AxiosError) (hsel : sel ≠ [])
    (hfill : ∀ r ∈ wd, r.max ≠ "" ∧ r.min ≠ "")
    (hnum : (buildWindow wd).any (fun row => row.any jsIsNaN) = false) :
    handlePredict sel wd (.error e) =
      ⟨some (if apiGetPredictionErr e = "" then "Prediction failed."
             else apiGetPredictionErr e), none, [], true⟩ := by
  have h1 : ¬ sel.length = 0 := by simpa [List.length_eq_zero] using hsel
  have h2 : wd.any (fun row => row.max = "" || row.min = "") = false := by
    simp only [List.any_eq_false]
    intro r hr
    obtain ⟨hmax, hmin⟩ := hfill r hr
    simp [hmax, hmin]
  simp [handlePredict, h1, h2, hnum, apiGetPrediction]

/-- The NaN check on the built window finds a NaN entry exactly when some
row's vector contains NaN. -/
theorem buildWindow_nan_iff (wd : List WeatherRow) :
    (buildWindow wd).any (fun row => row.any jsIsNaN) = true ↔
      ∃ r ∈ wd, ∃ v ∈ rowVec r, v = JSNum.nan := by
  simp [buildWindow, List.any_map, List.any_eq_true, jsIsNaN_eq_true, Function.comp]

/-- C3: with a non-empty selection, a 14-row grid in which some row has an
empty max or min temperature makes `handlePredict` stop with the
missing-required-field message, with no boundary call and regardless of
every other field's contents. -/
theorem c3_missing_required_field (sel : List String) (wd : List WeatherRow)
    (b : Except AxiosError PredictionResponse) (hsel : sel ≠ [])
    (_hlen : wd.length = 14) (hmiss : ∃ r ∈ wd, r.max = "" ∨ r.min = "") :
    handlePredict sel wd b = ⟨some "Max & Min temps needed.", none, [], false⟩ := by
  have h1 : ¬ sel.length = 0 := by simpa [List.length_eq_zero] using hsel
  have h2 : wd.any (fun row => row.max = "" || row.min = "") = true := by
    simp only [List.any_eq_true]
    obtain ⟨r, hr, hor⟩ := hmiss
    exact ⟨r, hr, by simpa using hor⟩
  simp [handlePredict, h1, h2]

theorem c3_missing_required_field_witness :
    (["rf"] : List String) ≠ [] ∧ emptyWd.length = 14
    ∧ handlePredict ["rf"] emptyWd (.ok ⟨[], none⟩)
        = ⟨some "Max & Min temps needed.", none, [], false⟩ :=
  ⟨by decide, by decide,
    c3_missing_required_field ["rf"] emptyWd (.ok ⟨[], none⟩) (by decide) (by decide)
      (by decide)⟩

/-- C4 (amended): with required fields filled, `handlePredict` stops with
the invalid-number message exactly when some parsed field is NaN — a field
parsing to an infinite value is not rejected — and otherwise the window
has 14 rows, blank optional fields parse to 0, and the boundary is
called. -/
theorem c4_invalid_number_amended (sel : List String) (wd : List WeatherRow)
    (b : Except AxiosError PredictionResponse) (hsel : sel ≠ [])
    (hlen : wd.length = 14) (hfill : ∀ r ∈ wd, r.max ≠ "" ∧ r.min ≠ "") :
    (handlePredict sel wd b = ⟨some "Invalid numbers detected.", none, [], false⟩
       ↔ ∃ r ∈ wd, ∃ v ∈ rowVec r, v = JSNum.nan)
    ∧ ((∀ r ∈ wd, ∀ v ∈ rowVec r, v ≠ JSNum.nan) →
        (buildWindow wd).length = 14
        ∧ (∀ r ∈ wd,
            (r.precip = "" → (rowVec r).get? 2 = some (JSNum.num 0))
            ∧ (r.snow = "" → (rowVec r).get? 3 = some (JSNum.num 0))
            ∧ (r.depth = "" → (rowVec r).get? 4 = some (JSNum.num 0)))
        ∧ (handlePredict sel wd b).apiCalled = true) := by
  have h1 : ¬ sel.length = 0 := by simpa [List.length_eq_zero] using hsel
  have h2 : wd.any (fun row => row.max = "" || row.min = "") = false := by
    simp only [List.any_eq_false]
    intro r hr
    obtain ⟨hmax, hmin⟩ := hfill r hr
    simp [hmax, hmin]
  constructor
  · by_cases hA : (buildWindow wd).any (fun row => row.any jsIsNaN) = true
    · exact iff_of_true (by simp [handlePredict, h1, h2, hA])
        ((buildWindow_nan_iff wd).mp hA)
    · have hA' : (buildWindow wd).any (fun row => row.any jsIsNaN) = false :=
        Bool.not_eq_true _ ▸ eq_false_of_ne_true hA
      refine iff_of_false ?_ (fun hex => hA ((buildWindow_nan_iff wd).mpr hex))
      cases b with
      | ok r => rw [handlePredict_ok sel wd r hsel hfill hA']; simp
      | error e => rw [handlePredict_err sel wd e hsel hfill hA']; simp
  · intro hnone
    have hA : (buildWindow wd).any (fun row => row.any jsIsNaN) = false := by
      have hne : ¬ (buildWindow wd).any (fun row => row.any jsIsNaN) = true := by
        rw [buildWindow_nan_iff]
        push_neg
        exact hnone
      exact Bool.not_eq_true _ ▸ eq_false_of_ne_true hne
    refine ⟨by simp [buildWindow, hlen], ?_, ?_⟩
    · intro r _
      refine ⟨fun hp => ?_, fun hs => ?_, fun hd => ?_⟩
      · have he : (rowVec r).get? 2 = some (parseFloat (jsOrS r.precip "0")) := rfl
        rw [he, hp, show jsOrS "" "0" = "0" from rfl, parseFloat_zero]
      · have he : (rowVec r).get? 3 = some (parseFloat (jsOrS r.snow "0")) := rfl
        rw [he, hs, show jsOrS "" "0" = "0" from rfl, parseFloat_zero]
      · have he : (rowVec r).get? 4 = some (parseFloat (jsOrS r.depth "0")) := rfl
        rw [he, hd, show jsOrS "" "0" = "0" from rfl, parseFloat_zero]
    · cases b with
      | ok resp => rw [handlePredict_ok sel wd resp hsel hfill hA]
      | error e => rw [handlePredict_err sel wd e hsel hfill hA]

/-- C4 counterexample: the grid `wdInf` has every required field
non-empty, but its first row's max field "Infinity" parses to a
non-finite number; contrary to the claim, `handlePredict` raises no
invalid-number error and still calls the boundary. -/
theorem c4_counterexample :
    parseFloat "Infinity" = JSNum.posInf
    ∧ (handlePredict ["rf"] wdInf (.ok okRespRfOnly)).globalError = none
    ∧ (handlePredict ["rf"] wdInf (.ok okRespRfOnly)).apiCalled = true := by
  have h := handlePredict_ok ["rf"] wdInf okRespRfOnly (by decide) (by decide) (by decide)
  rw [h]
  exact ⟨rfl, rfl, rfl⟩

theorem c4_invalid_number_amended_witness :
    (∃ r ∈ wdBad, ∃ v ∈ rowVec r, v = JSNum.nan)
    ∧ handlePredict ["rf"] wdBad (.ok okRespRfOnly)
        = ⟨some "Invalid numbers detected.", none, [], false⟩ :=
  ⟨by decide,
    (c4_invalid_number_amended ["rf"] wdBad (.ok okRespRfOnly) (by decide) (by decide)
      (by decide)).1.mpr (by decide)⟩

/-- C1 counterexample: with selection `[rf, gbr_tuned]`, a valid grid and
a boundary response answering only for "rf", the stored outcome's key set
is just `[rf]` — "gbr_tuned" is silently dropped, with no per-model
failure entry, contrary to the claimed reconciliation. -/
theorem c1_counterexample :
    outcomeKeys (handlePredict ["rf", "gbr_tuned"] validWd (.ok okRespRfOnly)) = ["rf"]
    ∧ (handlePredict ["rf", "gbr_tuned"] validWd (.ok okRespRfOnly)).modelErrors = []
    ∧ "gbr_tuned" ∉
        outcomeKeys (handlePredict ["rf", "gbr_tuned"] validWd (.ok okRespRfOnly)) := by
  have h := handlePredict_ok ["rf", "gbr_tuned"] validWd okRespRfOnly (by decide) (by decide)
    (by decide)
  rw [outcomeKeys, h]
  refine ⟨rfl, rfl, by decide⟩

/-- C1 (amended): after a completed request the outcome is exactly the
boundary's `predictions` and `errors` maps; its key set equals the
concatenation of their key sets — so it equals the selection exactly when
the boundary's maps cover the selection, and an id the boundary omits
appears nowhere. -/
theorem c1_outcome_union_amended (sel : List String) (wd : List WeatherRow)
    (resp : PredictionResponse) (hsel : sel ≠ []) (_hlen : wd.length = 14)
    (hfill : ∀ r ∈ wd, r.max ≠ "" ∧ r.min ≠ "")
    (hnum : (buildWindow wd).any (fun row => row.any jsIsNaN) = false) :
    handlePredict sel wd (.ok resp) = ⟨none, some resp.predictions, resp.errors.getD [], true⟩
    ∧ outcomeKeys (handlePredict sel wd (.ok resp))
        = resp.predictions.map Prod.fst ++ (resp.errors.getD []).map Prod.fst := by
  have h := handlePredict_ok sel wd resp hsel hfill hnum
  exact ⟨h, by rw [outcomeKeys, h]; rfl⟩

theorem c1_outcome_union_amended_witness :
    outcomeKeys (handlePredict ["rf", "gbr_tuned"] validWd (.ok okRespMixed))
      = ["rf", "gbr_tuned"] := by
  rw [(c1_outcome_union_amended ["rf", "gbr_tuned"] validWd okRespMixed (by decide) (by decide)
    (by decide) (by decide)).2]
  rfl

/-- C9: when the round-trip fails, `handlePredict` leaves both outcome
maps empty and stores exactly one request-level message; a structured,
non-empty error payload is used verbatim in preference to the generic
message. -/
theorem c9_transport_failure (sel : List String) (wd : List WeatherRow) (e : AxiosError)
    (hsel : sel ≠ []) (_hlen : wd.length = 14)
    (hfill : ∀ r ∈ wd, r.max ≠ "" ∧ r.min ≠ "")
    (hnum : (buildWindow wd).any (fun row => row.any jsIsNaN) = false) :
    (handlePredict sel wd (.error e)).predictions = none
    ∧ (handlePredict sel wd (.error e)).modelErrors = []
    ∧ (∃ m, (handlePredict sel wd (.error e)).globalError = some m)
    ∧ ∀ d s, e.responseData = some d → d.error = some s → s ≠ "" →
        (handlePredict sel wd (.error e)).globalError = some s := by
  have h := handlePredict_err sel wd e hsel hfill hnum
  rw [h]
  refine ⟨rfl, rfl, ⟨_, rfl⟩, ?_⟩
  intro d s hd hs hne
  simp [apiGetPredictionErr, hd, hs, hne]

theorem c9_transport_failure_witness :
    (handlePredict ["rf"] validWd (.error transportErr)).predictions = none
    ∧ (handlePredict ["rf"] validWd (.error transportErr)).globalError = some "timeout" := by
  have h := c9_transport_failure ["rf"] validWd transportErr (by decide) (by decide)
    (by decide) (by decide)
  exact ⟨h.1, h.2.2.2 ⟨some "timeout"⟩ "timeout" rfl rfl (by decide)⟩

/-- The adapter's JS index `startIndex + i` equals the natural index
`L - 14 + i` when at least 14 entries exist. -/
theorem jsGet_sub_add {α : Type} (l : List α) (L i : ℕ) (h14 : 14 ≤ L) :
    jsGet l ((L : ℤ) - 14 + i) = l.get? (L - 14 + i) := by
  have h0 : (0 : ℤ) ≤ (L : ℤ) - 14 + i := by omega
  have ht : ((L : ℤ) - 14 + i).toNat = L - 14 + i := by omega
  simp [jsGet, h0, ht]

/-- A list built over `range n` from the last `n` entries of `arr` equals
the mapped `n`-element tail of `arr`. -/
theorem map_range_eq_drop {α : Type} (arr : List α) (f : α → String) (g : ℕ → String)
    (n : ℕ) (hn : n ≤ arr.length)
    (hg : ∀ i, i < n → some (g i) = (arr.get? (arr.length - n + i)).map f) :
    (List.range n).map g = (arr.drop (arr.length - n)).map f := by
  apply List.ext_get?
  intro i
  rcases Nat.lt_or_ge i n with hi | hi
  · rw [List.get?_map, List.get?_map, List.get?_range hi, List.get?_drop]
    exact (hg i hi).symm ▸ rfl
  · have l1 : ((List.range n).map g).get? i = none := by
      rw [List.get?_eq_none]
      simp [hi]
    have l2 : ((arr.drop (arr.length - n)).map f).get? i = none := by
      rw [List.get?_eq_none]
      simp
      omega
    rw [l1, l2]

/-- C5: when every provider array has the same length `L ≥ 14`, the
adapter succeeds and each written column is exactly the provider's final
14 entries (indices `L - 14` through `L - 1`), earliest first, with the
depth column constantly "0". -/
theorem c5_last14_window {α : Type} (toStr : α → String) (d : Daily α)
    (prevRows : List WeatherRow) (prevPreds : Option (List (String × PredictionResult)))
    (L : ℕ) (hL : d.time.length = L) (h14 : 14 ≤ L)
    (hmax : d.temperature_2m_max.length = L) (hmin : d.temperature_2m_min.length = L)
    (hpre : d.precipitation_sum.length = L) (hsnow : d.snowfall_sum.length = L)
    (hstr : ∀ v, toStr v ≠ "") :
    (handleCitySearch toStr ⟨some d⟩ prevRows prevPreds).globalError = none
    ∧ (handleCitySearch toStr ⟨some d⟩ prevRows prevPreds).weatherData.length = 14
    ∧ (handleCitySearch toStr ⟨some d⟩ prevRows prevPreds).weatherData.map (fun r => r.max)
        = (d.temperature_2m_max.drop (L - 14)).map toStr
    ∧ (handleCitySearch toStr ⟨some d⟩ prevRows prevPreds).weatherData.map (fun r => r.min)
        = (d.temperature_2m_min.drop (L - 14)).map toStr
    ∧ (handleCitySearch toStr ⟨some d⟩ prevRows prevPreds).weatherData.map (fun r => r.precip)
        = (d.precipitation_sum.drop (L - 14)).map toStr
    ∧ (handleCitySearch toStr ⟨some d⟩ prevRows prevPreds).weatherData.map (fun r => r.snow)
        = (d.snowfall_sum.drop (L - 14)).map toStr
    ∧ ∀ r ∈ (handleCitySearch toStr ⟨some d⟩ prevRows prevPreds).weatherData, r.depth = "0" := by
  have hnot : ¬ d.temperature_2m_min.length < 14 := by omega
  have hres : handleCitySearch toStr ⟨some d⟩ prevRows prevPreds
      = ⟨none, (List.range 14).map (citySearchRow toStr d ((L : ℤ) - 14)), none⟩ := by
    simp [handleCitySearch, hnot, hL]
  have hget : ∀ (arr : List α), arr.length = L → ∀ i, i < 14 →
      ∃ v, arr.get? (L - 14 + i) = some v ∧ jsGet arr ((L : ℤ) - 14 + i) = some v := by
    intro arr ha i hi
    have hlt : L - 14 + i < arr.length := by omega
    refine ⟨arr.get ⟨L - 14 + i, hlt⟩, List.get?_eq_get hlt, ?_⟩
    rw [jsGet_sub_add arr L i h14]
    exact List.get?_eq_get hlt
  rw [hres]
  refine ⟨rfl, by simp, ?_, ?_, ?_, ?_, ?_⟩
  · rw [List.map_map]
    have := map_range_eq_drop d.temperature_2m_max toStr
      (fun i => (citySearchRow toStr d ((L : ℤ) - 14) i).max) 14 (by omega) ?_
    · rw [hmax] at this
      exact this
    · intro i hi
      obtain ⟨v, hv, hjs⟩ := hget d.temperature_2m_max hmax i hi
      rw [hmax]
      simp [citySearchRow, hjs]
      rw [← List.get?_eq_getElem?, hv]
      rfl
  · rw [List.map_map]
    have := map_range_eq_drop d.temperature_2m_min toStr
      (fun i => (citySearchRow toStr d ((L : ℤ) - 14) i).min) 14 (by omega) ?_
    · rw [hmin] at this
      exact this
    · intro i hi
      obtain ⟨v, hv, hjs⟩ := hget d.temperature_2m_min hmin i hi
      rw [hmin]
      simp [citySearchRow, hjs]
      rw [← List.get?_eq_getElem?, hv]
      rfl
  · rw [List.map_map]
    have := map_range_eq_drop d.precipitation_sum toStr
      (fun i => (citySearchRow toStr d ((L : ℤ) - 14) i).precip) 14 (by omega) ?_
    · rw [hpre] at this
      exact this
    · intro i hi
      obtain ⟨v, hv, hjs⟩ := hget d.precipitation_sum hpre i hi
      rw [hpre]
      simp [citySearchRow, hjs, jsOrS, hstr v]
      rw [← List.get?_eq_getElem?, hv]
      rfl
  · rw [List.map_map]
    have := map_range_eq_drop d.snowfall_sum toStr
      (fun i => (citySearchRow toStr d ((L : ℤ) - 14) i).snow) 14 (by omega) ?_
    · rw [hsnow] at this
      exact this
    · intro i hi
      obtain ⟨v, hv, hjs⟩ := hget d.snowfall_sum hsnow i hi
      rw [hsnow]
      simp [citySearchRow, hjs, jsOrS, hstr v]
      rw [← List.get?_eq_getElem?, hv]
      rfl
  · intro r hr
    simp only [List.mem_map] at hr
    obtain ⟨i, _, hri⟩ := hr
    rw [← hri]
    rfl

theorem c5_last14_window_witness :
    (∀ v : Bool, boolStr v ≠ "")
    ∧ (handleCitySearch boolStr ⟨some daily15⟩ [] none).globalError = none
    ∧ (handleCitySearch boolStr ⟨some daily15⟩ [] none).weatherData.map (fun r => r.max)
        = (daily15.temperature_2m_max.drop (15 - 14)).map boolStr :=
  ⟨by decide,
    (c5_last14_window boolStr daily15 [] none 15 (by decide) (by decide) (by decide)
      (by decide) (by decide) (by decide) (by decide)).1,
    (c5_last14_window boolStr daily15 [] none 15 (by decide) (by decide) (by decide)
      (by decide) (by decide) (by decide) (by decide)).2.2.1⟩

/-- C6 counterexample: a provider response whose max-temperature array is
empty (fewer than 14 entries in a required field) but whose
min-temperature array has 14 entries passes the adapter's check: no
insufficient-history error is raised and 14 rows with empty max fields
are written, contrary to the claim. -/
theorem c6_counterexample :
    shortMaxDaily.temperature_2m_max.length < 14
    ∧ (handleCitySearch boolStr ⟨some shortMaxDaily⟩ [] none).globalError = none
    ∧ (handleCitySearch boolStr ⟨some shortMaxDaily⟩ [] none).weatherData.length = 14
    ∧ ∀ r ∈ (handleCitySearch boolStr ⟨some shortMaxDaily⟩ [] none).weatherData,
        r.max = "" := by decide

/-- C6 (amended): the adapter fails with the insufficient-history error —
leaving the previous rows untouched — exactly when the daily block is
absent or the min-temperature array has fewer than 14 entries; a short
max-temperature array alone is not detected. -/
theorem c6_insufficient_iff {α : Type} (toStr : α → String) (resp : HistoricalResponse α)
    (prevRows : List WeatherRow) (prevPreds : Option (List (String × PredictionResult))) :
    handleCitySearch toStr resp prevRows prevPreds
        = ⟨some "Insufficient data.", prevRows, prevPreds⟩
      ↔ (resp.daily = none
          ∨ ∃ d, resp.daily = some d ∧ d.temperature_2m_min.length < 14) := by
  obtain ⟨daily⟩ := resp
  cases daily with
  | none => simp [handleCitySearch]
  | some d =>
    by_cases hlt : d.temperature_2m_min.length < 14
    · simp [handleCitySearch, hlt]
    · simp [handleCitySearch, hlt]
